import Mathlib

/-!
# Verification of the Viducate backend job-status cache and call-throttle gateway

Shallow embedding of `src/app/main.py` (the FastAPI application actually served:
`main.py` builds `app` and never mounts `app/routers/video.py`, so the handlers in
`main.py` are the authoritative code).

Modelling conventions:
* Wall-clock time (`time.time()`) is a `Nat` supplied to each handler as `now`.
  All timing comparisons in the source are of the form `now - t < bound`; with the
  clocks in the claims `now ≥ t` always holds, and for `now < t` truncated `Nat`
  subtraction selects the same branch as Python's negative float would.
* Network calls made through `requests` are modelled by a `ProviderOutcome`
  parameter: the response the provider would return, or the exception the
  transport would raise. The gateway's own behaviour is a pure function of the
  state, the clock and that outcome.
* Python exceptions are the inductive `Exc`; `Exc.http` is FastAPI's
  `HTTPException(status_code, detail)` and `Exc.err` any other exception.
  `str(e)` (used by the blanket `except Exception` handlers that re-raise
  `HTTPException(500, str(e))`) is modelled by `excToString`.
* The source keeps one dict `video_cache` holding job records (keyed by the
  provider-assigned id, which `result.get("id")` may return as `None`, hence keys
  are `Option String`) and one presenters entry under the fixed key
  `"available_avatars"` whose shape differs; the model keeps the presenters entry
  in a separate field, faithful for every id other than that reserved key.
* `ThrottleState.callCount` is ghost instrumentation that counts actual provider
  invocations (it is incremented exactly when the embedded `requests.get/post`
  executes); it is not part of the Python state and no branch reads it.
-/

/-- A Python byte string, as a list of byte values. -/
abbrev Bytes := List Nat

/-- The base64 alphabet used by `base64.b64encode`. -/
def base64Alphabet : List Char :=
  [ 'A','B','C','D','E','F','G','H','I','J','K','L','M','N','O','P','Q','R','S',
    'T','U','V','W','X','Y','Z','a','b','c','d','e','f','g','h','i','j','k','l',
    'm','n','o','p','q','r','s','t','u','v','w','x','y','z','0','1','2','3','4',
    '5','6','7','8','9','+','/' ]

/-- Character for a 6-bit group. -/
def b64Char (n : Nat) : Char := base64Alphabet.getD n 'A'

/-- Standard base64 of a byte list, with `=` padding (groups of three bytes). -/
def b64EncodeAux : Bytes → List Char
  | [] => []
  | [b0] => [b64Char (b0 / 4), b64Char (b0 % 4 * 16), '=', '=']
  | [b0, b1] =>
      [b64Char (b0 / 4), b64Char (b0 % 4 * 16 + b1 / 16), b64Char (b1 % 16 * 4), '=']
  | b0 :: b1 :: b2 :: rest =>
      b64Char (b0 / 4) :: b64Char (b0 % 4 * 16 + b1 / 16) ::
      b64Char (b1 % 16 * 4 + b2 / 64) :: b64Char (b2 % 64) :: b64EncodeAux rest

/-- Model of `base64.b64encode(contents).decode("utf-8")` from `main.py` line 163. -/
def b64encode (bytes : Bytes) : String := String.mk (b64EncodeAux bytes)

/-- A presenter object from the provider's `GET /presenters` JSON
(`presenter_id`, `name`, `thumbnail_url`; each may be absent). -/
structure Presenter where
  presenter_id : Option String
  name : Option String
  thumbnail_url : Option String
deriving DecidableEq, Repr

/-- A provider HTTP response as consumed by the handlers: the HTTP status code,
the raw body text, and the JSON fields the handlers read via `result.get(...)`
(absent keys are `none`). -/
structure DIDResponse where
  status_code : Nat
  text : String
  jsonId : Option String := none
  jsonStatus : Option String := none
  jsonResultUrl : Option String := none
  presenters : List Presenter := []
deriving DecidableEq, Repr

/-- Outcome of the underlying `requests.get`/`requests.post` call: a response,
or a raised transport exception. -/
inductive ProviderOutcome where
  | resp (r : DIDResponse)
  | exn (msg : String)
deriving DecidableEq, Repr

/-- A Python exception as observed by the handlers: `HTTPException(status, detail)`
or any other exception (carrying its message). -/
inductive Exc where
  | http (status_code : Nat) (detail : String)
  | err (msg : String)
deriving DecidableEq, Repr

/-- Model of `str(e)`: Starlette's `HTTPException.__str__` is the status code, a colon
and a space, then the detail; for other exceptions, the message. -/
def excToString : Exc → String
  | .http c d => toString c ++ ": " ++ d
  | .err m => m

/-- The module-level throttle state of `main.py`: `last_did_api_call` (line 22)
and `did_api_lock` (line 26). `callCount` is ghost instrumentation counting
provider invocations; no branch of the embedded code reads it. -/
structure ThrottleState where
  last_did_api_call : Nat
  did_api_lock : Bool
  callCount : Nat := 0
deriving DecidableEq, Repr

/-- Model of `can_make_did_api_call` (lines 43-62): denies when the lock is held or fewer
than 15 seconds elapsed since the last call; otherwise records `now` as the last
call time and allows. Returns the decision and the updated state. -/
def can_make_did_api_call (st : ThrottleState) (now : Nat) : Bool × ThrottleState :=
  if st.did_api_lock then (false, st)
  else if now - st.last_did_api_call < 15 then (false, st)
  else (true, { st with last_did_api_call := now })

/-- The acquisition portion of `make_did_api_call` (lines 69-87): the
`can_make_did_api_call` gate followed by setting the in-flight lock. `none`
means the call was refused (the 429 path). -/
def did_acquire (st : ThrottleState) (now : Nat) : Option ThrottleState :=
  match can_make_did_api_call st now with
  | (false, _) => none
  | (true, st1) => some { st1 with did_api_lock := true }

/-- Detail string of the 429 raised by `make_did_api_call` (lines 70-73). -/
def rateLimitDetail : String :=
  "Too many requests to D-ID API. Please wait before trying again."

/-- Model of `make_did_api_call` (lines 65-111): raises `HTTPException(429, …)` when the
gate refuses; otherwise sets the lock, performs the provider call (modelled by
the `call` outcome, counted in `callCount`), and releases the lock on both the
return path and the exception path before returning/re-raising. -/
def make_did_api_call (st : ThrottleState) (now : Nat) (call : ProviderOutcome) :
    Except Exc DIDResponse × ThrottleState :=
  match did_acquire st now with
  | none => (.error (.http 429 rateLimitDetail), st)
  | some locked =>
    let mid := { locked with callCount := locked.callCount + 1 }
    match call with
    | .resp r => (.ok r, { mid with did_api_lock := false })
    | .exn m => (.error (.err m), { mid with did_api_lock := false })

/-- One job record of `video_cache`: the dict written at lines 181-186, 249-254,
260-265 and 361-366. `status` is `Option String` because the live-check write at
line 261 stores `result.get("status")`, which may be `None`. -/
structure CacheEntry where
  status : Option String
  last_checked : Nat
  result_url : Option String
  last_d_id_check : Nat
deriving DecidableEq, Repr

/-- The formatted avatar dict built at lines 313-318. -/
structure Avatar where
  id : Option String
  name : Option String
  thumbnail : Option String
deriving DecidableEq, Repr

/-- The presenters cache entry stored under the key `"available_avatars"`
(lines 321-324). -/
structure AvatarsCacheEntry where
  avatars : List Avatar
  last_checked : Nat
deriving DecidableEq, Repr

/-- The process-wide mutable state of `main.py`: the job cache (keys are the
provider-assigned ids, possibly `None`), the presenters cache entry, and the
throttle state. -/
structure AppState where
  video_cache : Option String → Option CacheEntry
  avatars_cache : Option AvatarsCacheEntry
  throttle : ThrottleState

/-- Point update of the job cache. -/
def cachePut (c : Option String → Option CacheEntry) (k : Option String)
    (e : CacheEntry) : Option String → Option CacheEntry :=
  fun k' => if k' = k then some e else c k'

/-- Reply JSON of `/video-status/{id}`: a `status` field (the cached value, which
may be `None`), and either `video_url` or `message`. -/
structure StatusReply where
  status : Option String
  video_url : Option String := none
  message : Option String := none
deriving DecidableEq, Repr

/-- Reply JSON of `/generate-video/` (lines 188-192). -/
structure GenReply where
  id : Option String
  status : String
  message : String
deriving DecidableEq, Repr

/-- The uploaded file argument (`custom_avatar`): filename and raw bytes. -/
structure UploadFileM where
  filename : String
  contents : Bytes
deriving DecidableEq, Repr

/-- The voice table of `generate_video` (lines 133-138). -/
def voice_mapping : String → Option String
  | "en" => some "en-US-JennyNeural"
  | "es" => some "es-ES-ElviraNeural"
  | "hi" => some "hi-IN-SwaraNeural"
  | "fr" => some "fr-FR-DeniseNeural"
  | _ => none

/-- Model of `voice_mapping.get(language, voice_mapping["en"])` (line 140). -/
def selected_voice (language : String) : String :=
  (voice_mapping language).getD "en-US-JennyNeural"

/-- The `script.provider` object of the payload. -/
structure ScriptProvider where
  type : String
  voice_id : String
deriving DecidableEq, Repr

/-- The `script` object of the payload. -/
structure Script where
  type : String
  input : String
  provider : ScriptProvider
deriving DecidableEq, Repr

/-- The provider payload built by `generate_video` (lines 143-168):
`source_image` is present exactly when a custom avatar with a non-empty
filename was uploaded, `presenter_id` exactly otherwise. -/
structure Payload where
  script : Script
  driver_id : String
  source_image : Option String := none
  presenter_id : Option String := none
deriving DecidableEq, Repr

/-- Payload construction of `generate_video` (lines 133-168): voice from the
table (default English), fixed driver id, then either the base64-embedded
image as `source_image` (when `custom_avatar` is present with a truthy
filename) or a `presenter_id` (the caller's choice, or `"rian"` when the
choice is the sentinel `"default"`). -/
def build_payload (text language avatar : String) (custom_avatar : Option UploadFileM) :
    Payload :=
  let base : Payload :=
    { script :=
        { type := "text", input := text,
          provider := { type := "microsoft", voice_id := selected_voice language } },
      driver_id := "uM00QMwJ9x" }
  match custom_avatar with
  | some f =>
    if f.filename ≠ "" then
      { base with source_image := some (b64encode f.contents) }
    else
      { base with presenter_id := some (if avatar ≠ "default" then avatar else "rian") }
  | none =>
    { base with presenter_id := some (if avatar ≠ "default" then avatar else "rian") }

/-- Message returned while a video is still processing (lines 222, 234, 268). -/
def processingMsg : String := "Video is still processing"

/-- Message returned when a live status check was throttled (line 277). -/
def throttledMsg : String := "Video is still processing (status check rate limited)"

/-- The live-check portion of `get_video_status` (the inner `try` at lines
238-281): performs the throttled provider call, maps `done` to a completed
record with the reported URL, stores any other reported status as a processing
record, and on an `HTTPException` with status 429 falls back to the cached
entry when one exists. Errors are returned unwrapped; the surrounding handler
applies the blanket `except Exception` 500-wrap. -/
def status_live_check (s : AppState) (now : Nat) (video_id : String)
    (cache_entry : Option CacheEntry) (call : ProviderOutcome) :
    Except Exc StatusReply × AppState :=
  match make_did_api_call s.throttle now call with
  | (.ok response, th) =>
    let s1 : AppState := { s with throttle := th }
    if response.status_code ≠ 200 then
      -- `raise HTTPException(response.status_code, response.text)` (line 242),
      -- caught by `except HTTPException as he` (lines 271-281)
      if response.status_code = 429 then
        match cache_entry with
        | some ce => (.ok { status := ce.status, message := some throttledMsg }, s1)
        | none => (.error (.http response.status_code response.text), s1)
      else
        (.error (.http response.status_code response.text), s1)
    else if response.jsonStatus = some "done" then
      let e : CacheEntry :=
        { status := some "completed", last_checked := now,
          result_url := response.jsonResultUrl, last_d_id_check := now }
      (.ok { status := some "completed", video_url := response.jsonResultUrl },
       { s1 with video_cache := cachePut s1.video_cache (some video_id) e })
    else
      let e : CacheEntry :=
        { status := response.jsonStatus, last_checked := now,
          result_url := none, last_d_id_check := now }
      (.ok { status := response.jsonStatus, message := some processingMsg },
       { s1 with video_cache := cachePut s1.video_cache (some video_id) e })
  | (.error (.http 429 d), th) =>
    -- the throttle's own 429, caught by the same inner handler
    let s1 : AppState := { s with throttle := th }
    match cache_entry with
    | some ce => (.ok { status := ce.status, message := some throttledMsg }, s1)
    | none => (.error (.http 429 d), s1)
  | (.error e, th) =>
    (.error e, { s with throttle := th })

/-- Model of `get_video_status` (lines 199-285), before the outer `except Exception`:
Case 1 serves completed records from cache; Case 2 serves any record checked
fewer than 30 seconds ago; Case 3 serves records whose provider check is fewer
than 60 seconds old, refreshing `last_checked`; otherwise a live check runs. -/
def get_video_status_inner (s : AppState) (now : Nat) (video_id : String)
    (call : ProviderOutcome) : Except Exc StatusReply × AppState :=
  let cache_entry := s.video_cache (some video_id)
  match cache_entry with
  | some e =>
    if e.status = some "completed" then
      (.ok { status := some "completed", video_url := e.result_url }, s)
    else if now - e.last_checked < 30 then
      (.ok { status := e.status, message := some processingMsg }, s)
    else if now - e.last_d_id_check < 60 then
      let e' : CacheEntry := { e with last_checked := now }
      (.ok { status := e.status, message := some processingMsg },
       { s with video_cache := cachePut s.video_cache (some video_id) e' })
    else
      status_live_check s now video_id cache_entry call
  | none => status_live_check s now video_id cache_entry call

/-- Model of `get_video_status` with its outer `except Exception as e:` handler
(lines 283-285), which re-raises every escaping exception — `HTTPException`s
included — as `HTTPException(500, str(e))`. -/
def get_video_status (s : AppState) (now : Nat) (video_id : String)
    (call : ProviderOutcome) : Except Exc StatusReply × AppState :=
  match get_video_status_inner s now video_id call with
  | (.ok r, s1) => (.ok r, s1)
  | (.error e, s1) => (.error (.http 500 (excToString e)), s1)

/-- Model of `generate_video` (lines 119-196): builds the payload, performs the throttled
`POST /talks`, requires HTTP 201, seeds the cache with a pending record keyed by
the returned id, and returns the id. Every failure escapes through the blanket
`except Exception` (lines 194-196) as `HTTPException(500, str(e))`. -/
def generate_video (s : AppState) (now : Nat) (text language avatar : String)
    (custom_avatar : Option UploadFileM) (call : ProviderOutcome) :
    Except Exc GenReply × AppState :=
  let _payload := build_payload text language avatar custom_avatar
  match make_did_api_call s.throttle now call with
  | (.ok response, th) =>
    let s1 : AppState := { s with throttle := th }
    if response.status_code ≠ 201 then
      (.error (.http 500 (excToString (.http response.status_code response.text))), s1)
    else
      let video_id := response.jsonId
      let e : CacheEntry :=
        { status := some "pending", last_checked := now,
          result_url := none, last_d_id_check := now }
      (.ok { id := video_id, status := "pending", message := "Video generation started" },
       { s1 with video_cache := cachePut s1.video_cache video_id e })
  | (.error e, th) =>
    (.error (.http 500 (excToString e)), { s with throttle := th })

/-- Avatar formatting of lines 313-318: `name` defaults to the presenter id when
the `name` key is absent. -/
def formatPresenter (p : Presenter) : Avatar :=
  { id := p.presenter_id,
    name := match p.name with | some n => some n | none => p.presenter_id,
    thumbnail := p.thumbnail_url }

/-- Model of `get_available_avatars` (lines 288-330): serves the presenters cache entry
when it is under 3600 seconds old, otherwise performs a throttled live call,
requires HTTP 200, formats and caches the presenter list. Every failure —
including the throttle's 429 — escapes through `except Exception`
(lines 328-330) as `HTTPException(500, str(e))`; there is no cache fallback on
the error path. -/
def get_available_avatars (s : AppState) (now : Nat) (call : ProviderOutcome) :
    Except Exc (List Avatar) × AppState :=
  match s.avatars_cache with
  | some ce =>
    if now - ce.last_checked < 3600 then
      (.ok ce.avatars, s)
    else
      match make_did_api_call s.throttle now call with
      | (.ok response, th) =>
        let s1 : AppState := { s with throttle := th }
        if response.status_code ≠ 200 then
          (.error (.http 500 (excToString (.http response.status_code response.text))), s1)
        else
          let formatted := response.presenters.map formatPresenter
          (.ok formatted,
           { s1 with avatars_cache := some { avatars := formatted, last_checked := now } })
      | (.error e, th) =>
        (.error (.http 500 (excToString e)), { s with throttle := th })
  | none =>
    match make_did_api_call s.throttle now call with
    | (.ok response, th) =>
      let s1 : AppState := { s with throttle := th }
      if response.status_code ≠ 200 then
        (.error (.http 500 (excToString (.http response.status_code response.text))), s1)
      else
        let formatted := response.presenters.map formatPresenter
        (.ok formatted,
         { s1 with avatars_cache := some { avatars := formatted, last_checked := now } })
    | (.error e, th) =>
      (.error (.http 500 (excToString e)), { s with throttle := th })

/-- The live branch of `stream_video` (lines 346-366): a throttled provider
call that must return HTTP 200 with status `done`; the completed record with
the reported `result_url` is then written to the cache. Failures are returned
already 500-wrapped by the handler's `except Exception` (lines 377-379). -/
def stream_video_live (s : AppState) (now : Nat) (video_id : String)
    (call : ProviderOutcome) : Except Exc (Option String) × AppState :=
  match make_did_api_call s.throttle now call with
  | (.ok response, th) =>
    let s1 : AppState := { s with throttle := th }
    if response.status_code ≠ 200 then
      (.error (.http 500 (excToString (.http response.status_code response.text))), s1)
    else if response.jsonStatus ≠ some "done" then
      (.error (.http 500 (excToString (.http 400 "Video is not ready yet"))), s1)
    else
      let video_url := response.jsonResultUrl
      let e : CacheEntry :=
        { status := some "completed", last_checked := now,
          result_url := video_url, last_d_id_check := now }
      (.ok video_url,
       { s1 with video_cache := cachePut s1.video_cache (some video_id) e })
  | (.error e, th) =>
    (.error (.http 500 (excToString e)), { s with throttle := th })

/-- Python truthiness of `cache_entry.get("result_url")` (line 341): the value
is present and a non-empty string. -/
def truthyUrl : Option String → Bool
  | some u => u ≠ ""
  | none => false

/-- Model of `stream_video` (lines 333-379), up to the byte fetch: returns the URL the
handler proceeds to stream. A cached completed record with a truthy
(non-empty) `result_url` is used directly; otherwise the live branch runs. -/
def stream_video (s : AppState) (now : Nat) (video_id : String)
    (call : ProviderOutcome) : Except Exc (Option String) × AppState :=
  match s.video_cache (some video_id) with
  | some e =>
    if e.status = some "completed" ∧ truthyUrl e.result_url then
      (.ok e.result_url, s)
    else
      stream_video_live s now video_id call
  | none => stream_video_live s now video_id call

/-- The spec's externally visible job states (`Pending`, `Processing`,
`Completed`, `Failed`). -/
inductive SpecJobState where
  | Pending
  | Processing
  | Completed
  | Failed
deriving DecidableEq, Repr

/-- Abstraction from the cached status strings of the source to the spec's
externally visible states: `"completed"` is `Completed`, `"pending"` is
`Pending`, the provider-native failure state `"error"` is `Failed`, and every
other stored provider state (`"created"`, `"started"`, …) is `Processing`. -/
def specState : Option String → SpecJobState
  | some "completed" => .Completed
  | some "pending" => .Pending
  | some "error" => .Failed
  | _ => .Processing

/-- The result-URL invariant on one job record: `result_url` is present iff the
record's state is completed. -/
def entryInv (e : CacheEntry) : Prop :=
  e.result_url ≠ none ↔ e.status = some "completed"

/-- The result-URL invariant over the whole job cache. -/
def cacheInv (s : AppState) : Prop :=
  ∀ k e, s.video_cache k = some e → entryInv e

/-- Well-formedness of a provider outcome, per the provider contract of the
spec (§4.2/§6): a status-fetch response reporting `done` carries a result URL,
and provider-native states are `created`, `started`, `done` or `error` — in
particular never the gateway's own word `"completed"`. -/
def wfOutcome : ProviderOutcome → Prop
  | .resp r => (r.jsonStatus = some "done" → r.jsonResultUrl ≠ none)
      ∧ r.jsonStatus ≠ some "completed"
  | .exn _ => True

/-- The job-cache shape immediately after a submission accepted at time `T0`
(lines 181-186): a pending record for the new id with both timestamps `T0`,
and a throttle whose last call happened at `T0`. -/
def seededState (other : Option String → Option CacheEntry)
    (av : Option AvatarsCacheEntry) (vid : String) (T0 c : Nat) : AppState :=
  ⟨cachePut other (some vid) ⟨some "pending", T0, none, T0⟩, av, ⟨T0, false, c⟩⟩

/-! ## Helper lemmas -/

theorem make_did_denied (st : ThrottleState) (now : Nat) (call : ProviderOutcome)
    (h : st.did_api_lock = true ∨ now - st.last_did_api_call < 15) :
    make_did_api_call st now call = (.error (.http 429 rateLimitDetail), st) := by
  unfold make_did_api_call did_acquire can_make_did_api_call
  rcases h with h | h
  · simp [h]
  · cases hl : st.did_api_lock <;> simp [h]

theorem make_did_allowed_resp (st : ThrottleState) (now : Nat) (r : DIDResponse)
    (hl : st.did_api_lock = false) (hi : 15 ≤ now - st.last_did_api_call) :
    make_did_api_call st now (.resp r) = (.ok r, ⟨now, false, st.callCount + 1⟩) := by
  unfold make_did_api_call did_acquire can_make_did_api_call
  simp [hl, Nat.not_lt.mpr hi]

theorem make_did_allowed_exn (st : ThrottleState) (now : Nat) (m : String)
    (hl : st.did_api_lock = false) (hi : 15 ≤ now - st.last_did_api_call) :
    make_did_api_call st now (.exn m) = (.error (.err m), ⟨now, false, st.callCount + 1⟩) := by
  unfold make_did_api_call did_acquire can_make_did_api_call
  simp [hl, Nat.not_lt.mpr hi]

/-- Serving a completed record from cache: Case 1 of `get_video_status` leaves
the state untouched and answers from the record. -/
theorem completed_cache_hit (s : AppState) (now : Nat) (vid : String)
    (call : ProviderOutcome) (e : CacheEntry)
    (hlook : s.video_cache (some vid) = some e) (hst : e.status = some "completed") :
    get_video_status s now vid call =
      (.ok { status := some "completed", video_url := e.result_url }, s) := by
  unfold get_video_status get_video_status_inner
  simp [hlook, hst]

/-! ## Claim theorems -/

/-- C5: the Call Throttle contract. Acquisition (`can_make_did_api_call`
followed by taking the lock, as performed by `make_did_api_call`) fails exactly
when the in-flight lock is held or fewer than 15 seconds elapsed since
`last_did_api_call`, and the failure is the 429 raised by `make_did_api_call`;
on success the in-flight lock is set and `last_did_api_call = now`; and after
the ensuing provider call the lock is released on every exit path — normal
responses (error statuses included) and raised exceptions alike. -/
theorem throttle_contract (st : ThrottleState) (now : Nat) (call : ProviderOutcome) :
    (did_acquire st now = none ↔
      (st.did_api_lock = true ∨ now - st.last_did_api_call < 15))
    ∧ ((make_did_api_call st now call).fst = .error (.http 429 rateLimitDetail) ↔
        did_acquire st now = none)
    ∧ (∀ stMid, did_acquire st now = some stMid →
        stMid.did_api_lock = true ∧ stMid.last_did_api_call = now)
    ∧ (did_acquire st now ≠ none →
        (make_did_api_call st now call).snd.did_api_lock = false) := by
  unfold make_did_api_call did_acquire can_make_did_api_call
  by_cases hl : st.did_api_lock <;> by_cases hi : now - st.last_did_api_call < 15 <;>
    cases call <;> simp [hl, hi, rateLimitDetail]

/-- Witness for C5 at concrete inputs: acquisition from an unlocked, stale
throttle at time 20 succeeds with the lock set and the call time recorded, and
after a provider call that raises an exception the lock is released. -/
theorem throttle_contract_witness :
    did_acquire ⟨0, false, 0⟩ 20 = some ⟨20, true, 0⟩
    ∧ ((⟨20, true, 0⟩ : ThrottleState).did_api_lock = true
        ∧ (⟨20, true, 0⟩ : ThrottleState).last_did_api_call = 20)
    ∧ (make_did_api_call ⟨0, false, 0⟩ 20 (.exn "connection reset")).snd.did_api_lock = false := by
  have h := throttle_contract ⟨0, false, 0⟩ 20 (.exn "connection reset")
  exact ⟨by decide, h.2.2.1 ⟨20, true, 0⟩ (by decide), h.2.2.2 (by decide)⟩

/-- C9: submission payload construction (`generate_video`, lines 133-168).
With language `"fr"`, no image and avatar `"default"`, the payload's voice is
the French table entry and the presenter id the fixed default `"rian"`; with an
image present the payload carries the base64-embedded image as the avatar
source and omits any presenter id; and every language outside the fixed table
falls back to the default English voice. -/
theorem payload_construction (text lang avatar : String) (img : UploadFileM)
    (hfn : img.filename ≠ "")
    (hlang : lang ∉ (["en", "es", "hi", "fr"] : List String)) :
    ((build_payload text "fr" "default" none).script.provider.voice_id = "fr-FR-DeniseNeural"
      ∧ (build_payload text "fr" "default" none).presenter_id = some "rian"
      ∧ (build_payload text "fr" "default" none).source_image = none)
    ∧ ((build_payload text lang avatar (some img)).source_image
          = some (b64encode img.contents)
        ∧ (build_payload text lang avatar (some img)).presenter_id = none)
    ∧ (build_payload text lang avatar none).script.provider.voice_id
        = "en-US-JennyNeural" := by
  have hvm : voice_mapping lang = none := by
    simp only [List.mem_cons, List.not_mem_nil, or_false] at hlang
    push_neg at hlang
    obtain ⟨h1, h2, h3, h4⟩ := hlang
    unfold voice_mapping
    split <;> simp_all
  refine ⟨⟨rfl, rfl, rfl⟩, ⟨?_, ?_⟩, ?_⟩ <;>
    simp [build_payload, selected_voice, hfn, hvm]

/-- Witness for C9 at concrete inputs: language `"de"` is outside the table,
and the uploaded file has a non-empty filename. -/
theorem payload_construction_witness :
    (("avatar.png" ≠ "") ∧ "de" ∉ (["en", "es", "hi", "fr"] : List String))
    ∧ (((build_payload "hello" "fr" "default" none).script.provider.voice_id
          = "fr-FR-DeniseNeural"
        ∧ (build_payload "hello" "fr" "default" none).presenter_id = some "rian"
        ∧ (build_payload "hello" "fr" "default" none).source_image = none)
      ∧ ((build_payload "hello" "de" "default"
            (some ⟨"avatar.png", [1, 2, 3]⟩)).source_image
            = some (b64encode [1, 2, 3])
          ∧ (build_payload "hello" "de" "default"
              (some ⟨"avatar.png", [1, 2, 3]⟩)).presenter_id = none)
      ∧ (build_payload "hello" "de" "default" none).script.provider.voice_id
          = "en-US-JennyNeural") :=
  ⟨⟨by decide, by decide⟩,
    payload_construction "hello" "de" "default" ⟨"avatar.png", [1, 2, 3]⟩
      (by decide) (by decide)⟩

/-- The throttle state after a live check is exactly the state
`make_did_api_call` leaves behind, whichever branch the response takes. -/
theorem status_live_check_throttle (s : AppState) (now : Nat) (vid : String)
    (ce : Option CacheEntry) (call : ProviderOutcome) :
    (status_live_check s now vid ce call).snd.throttle =
      (make_did_api_call s.throttle now call).snd := by
  unfold status_live_check
  split <;> rename_i heq <;> rw [heq] <;>
    repeat' first | rfl | split

/-- Tier 1 fall-through plus Tier 2 hit: a non-completed record checked fewer
than 30 seconds ago is served from cache with no state change. -/
theorem get_status_fresh (s : AppState) (now : Nat) (vid : String)
    (call : ProviderOutcome) (e : CacheEntry)
    (hlook : s.video_cache (some vid) = some e)
    (hst : e.status ≠ some "completed")
    (h2 : now - e.last_checked < 30) :
    get_video_status s now vid call =
      (.ok { status := e.status, message := some processingMsg }, s) := by
  unfold get_video_status get_video_status_inner
  rw [hlook]
  simp [hst, h2]

/-- Tier 3 hit: a non-completed record whose provider check is fewer than 60
seconds old is served from cache, refreshing only `last_checked`. -/
theorem get_status_tier3 (s : AppState) (now : Nat) (vid : String)
    (call : ProviderOutcome) (e : CacheEntry)
    (hlook : s.video_cache (some vid) = some e)
    (hst : e.status ≠ some "completed")
    (h2 : 30 ≤ now - e.last_checked) (h3 : now - e.last_d_id_check < 60) :
    get_video_status s now vid call =
      (.ok { status := e.status, message := some processingMsg },
       { s with video_cache := cachePut s.video_cache (some vid) { e with last_checked := now } }) := by
  unfold get_video_status get_video_status_inner
  rw [hlook]
  simp [hst, Nat.not_lt.mpr h2, h3]

/-- All tiers expired: the status query falls through to the live check. -/
theorem get_status_stale (s : AppState) (now : Nat) (vid : String)
    (call : ProviderOutcome) (e : CacheEntry)
    (hlook : s.video_cache (some vid) = some e)
    (hst : e.status ≠ some "completed")
    (h2 : 30 ≤ now - e.last_checked) (h3 : 60 ≤ now - e.last_d_id_check) :
    get_video_status_inner s now vid call = status_live_check s now vid (some e) call := by
  unfold get_video_status_inner
  rw [hlook]
  simp [hst, Nat.not_lt.mpr h2, Nat.not_lt.mpr h3]

/-- No cache entry: the status query attempts the live check unconditionally. -/
theorem get_status_nocache (s : AppState) (now : Nat) (vid : String)
    (call : ProviderOutcome) (hlook : s.video_cache (some vid) = none) :
    get_video_status_inner s now vid call = status_live_check s now vid none call := by
  unfold get_video_status_inner
  rw [hlook]

/-- C1: the three-tier staleness policy of `get_video_status` on a freshly
seeded record (each call taken on the post-submission state): at `T0+10` the
cached pending state is returned with no state change and no provider call; at
`T0+40` the cached state is returned with no provider call while `last_checked`
is refreshed to the current time; at `T0+65` a live provider call is performed
(the ghost call counter increments), whatever the provider outcome. -/
theorem staleness_tiers (T0 c : Nat) (vid : String) (av : Option AvatarsCacheEntry)
    (other : Option String → Option CacheEntry) (call0 call1 call2 : ProviderOutcome) :
    get_video_status (seededState other av vid T0 c) (T0 + 10) vid call0
      = (.ok { status := some "pending", message := some processingMsg },
         seededState other av vid T0 c)
    ∧ ((get_video_status (seededState other av vid T0 c) (T0 + 40) vid call1).fst
          = .ok { status := some "pending", message := some processingMsg }
        ∧ (get_video_status (seededState other av vid T0 c) (T0 + 40) vid call1).snd.video_cache
            (some vid) = some ⟨some "pending", T0 + 40, none, T0⟩
        ∧ (get_video_status (seededState other av vid T0 c) (T0 + 40) vid call1).snd.throttle
            = ⟨T0, false, c⟩)
    ∧ (get_video_status (seededState other av vid T0 c) (T0 + 65) vid call2).snd.throttle.callCount
        = c + 1 := by
  have hlook : (seededState other av vid T0 c).video_cache (some vid)
      = some ⟨some "pending", T0, none, T0⟩ := by
    simp [seededState, cachePut]
  have hst : (⟨some "pending", T0, none, T0⟩ : CacheEntry).status ≠ some "completed" := by
    simp
  have h10 := get_status_fresh (seededState other av vid T0 c) (T0 + 10) vid call0
    _ hlook hst (by simp)
  have h40 := get_status_tier3 (seededState other av vid T0 c) (T0 + 40) vid call1
    _ hlook hst (by simp) (by simp)
  have h65 := get_status_stale (seededState other av vid T0 c) (T0 + 65) vid call2
    _ hlook hst (by simp) (by simp)
  refine ⟨h10, ⟨by rw [h40], by rw [h40]; simp [cachePut], by rw [h40]; rfl⟩, ?_⟩
  have hwrap : (get_video_status (seededState other av vid T0 c) (T0 + 65) vid call2).snd
      = (get_video_status_inner (seededState other av vid T0 c) (T0 + 65) vid call2).snd := by
    unfold get_video_status
    split <;> rename_i heq <;> rw [heq]
  rw [hwrap, h65, status_live_check_throttle]
  show (make_did_api_call ⟨T0, false, c⟩ (T0 + 65) call2).snd.callCount = c + 1
  rcases call2 with r | m
  · rw [make_did_allowed_resp _ _ _ rfl (by simp)]
  · rw [make_did_allowed_exn _ _ _ rfl (by simp)]

/-- The outer `except Exception` wrap of `get_video_status` does not change the
resulting state. -/
theorem get_video_status_snd (s : AppState) (now : Nat) (vid : String)
    (call : ProviderOutcome) :
    (get_video_status s now vid call).snd =
      (get_video_status_inner s now vid call).snd := by
  unfold get_video_status
  split <;> rename_i heq <;> rw [heq]

/-- A denied throttle leaves the state untouched and makes the live check fall
back to the cached entry, or re-raise the 429 when there is none. -/
theorem status_live_check_denied (s : AppState) (now : Nat) (vid : String)
    (ce : Option CacheEntry) (call : ProviderOutcome)
    (h : s.throttle.did_api_lock = true ∨ now - s.throttle.last_did_api_call < 15) :
    status_live_check s now vid ce call =
      match ce with
      | some e => (.ok { status := e.status, message := some throttledMsg }, s)
      | none => (.error (.http 429 rateLimitDetail), s) := by
  unfold status_live_check
  rw [make_did_denied _ _ _ h]

/-- An allowed live check whose transport raises leaves only the throttle
changed and propagates the exception. -/
theorem status_live_check_exn (s : AppState) (now : Nat) (vid : String)
    (ce : Option CacheEntry) (m : String)
    (hl : s.throttle.did_api_lock = false) (hi : 15 ≤ now - s.throttle.last_did_api_call) :
    status_live_check s now vid ce (.exn m) =
      (.error (.err m), { s with throttle := ⟨now, false, s.throttle.callCount + 1⟩ }) := by
  unfold status_live_check
  rw [make_did_allowed_exn _ _ _ hl hi]

/-- An allowed live check on a provider response, spelled out branch by
branch. -/
theorem status_live_check_resp (s : AppState) (now : Nat) (vid : String)
    (ce : Option CacheEntry) (r : DIDResponse)
    (hl : s.throttle.did_api_lock = false) (hi : 15 ≤ now - s.throttle.last_did_api_call) :
    status_live_check s now vid ce (.resp r) =
      let s1 : AppState := { s with throttle := ⟨now, false, s.throttle.callCount + 1⟩ }
      if r.status_code ≠ 200 then
        if r.status_code = 429 then
          match ce with
          | some e => (.ok { status := e.status, message := some throttledMsg }, s1)
          | none => (.error (.http r.status_code r.text), s1)
        else (.error (.http r.status_code r.text), s1)
      else if r.jsonStatus = some "done" then
        let e1 : CacheEntry := ⟨some "completed", now, r.jsonResultUrl, now⟩
        (.ok { status := some "completed", video_url := r.jsonResultUrl },
         { s1 with video_cache := cachePut s.video_cache (some vid) e1 })
      else
        let e1 : CacheEntry := ⟨r.jsonStatus, now, none, now⟩
        (.ok { status := r.jsonStatus, message := some processingMsg },
         { s1 with video_cache := cachePut s.video_cache (some vid) e1 }) := by
  unfold status_live_check
  rw [make_did_allowed_resp _ _ _ hl hi]

/-- The state component left by an allowed `make_did_api_call`, whatever the
outcome. -/
theorem make_did_allowed_snd (st : ThrottleState) (now : Nat) (call : ProviderOutcome)
    (hl : st.did_api_lock = false) (hi : 15 ≤ now - st.last_did_api_call) :
    (make_did_api_call st now call).snd = ⟨now, false, st.callCount + 1⟩ := by
  rcases call with r | m
  · rw [make_did_allowed_resp _ _ _ hl hi]
  · rw [make_did_allowed_exn _ _ _ hl hi]

/-- C2 (amended): terminal-state idempotence holds exactly for Completed
records — a completed record is always served from cache with no state change
and no provider call — while the code has no terminal Failed state: a record
in the provider-reported failure state `"error"` (the state `specState` maps
to `Failed`) is re-queried once the staleness windows expire and the throttle
allows, performing a provider call. -/
theorem terminal_state_idempotence (s : AppState) (now : Nat) (vid : String)
    (call : ProviderOutcome) (e : CacheEntry) :
    (s.video_cache (some vid) = some e → e.status = some "completed" →
      get_video_status s now vid call =
        (.ok { status := some "completed", video_url := e.result_url }, s))
    ∧ (s.video_cache (some vid) = some e → e.status = some "error" →
        30 ≤ now - e.last_checked → 60 ≤ now - e.last_d_id_check →
        s.throttle.did_api_lock = false → 15 ≤ now - s.throttle.last_did_api_call →
        (get_video_status s now vid call).snd.throttle.callCount
          = s.throttle.callCount + 1) := by
  constructor
  · intro hlook hst
    exact completed_cache_hit s now vid call e hlook hst
  · intro hlook hst h2 h3 hl hi
    have hne : e.status ≠ some "completed" := by rw [hst]; simp
    rw [get_video_status_snd, get_status_stale s now vid call e hlook hne h2 h3,
      status_live_check_throttle, make_did_allowed_snd _ _ _ hl hi]

/-- Witness for C2 (amended) at concrete inputs: a completed record served
unchanged from cache, and an `"error"` record that does trigger a provider
call once stale. -/
theorem terminal_state_idempotence_witness :
    get_video_status
        ⟨cachePut (fun _ => none) (some "a") ⟨some "completed", 5, some "u", 5⟩,
         none, ⟨0, false, 0⟩⟩ 100 "a" (.exn "x")
      = (.ok { status := some "completed", video_url := some "u" },
         ⟨cachePut (fun _ => none) (some "a") ⟨some "completed", 5, some "u", 5⟩,
          none, ⟨0, false, 0⟩⟩)
    ∧ (get_video_status
        ⟨cachePut (fun _ => none) (some "b") ⟨some "error", 0, none, 0⟩,
         none, ⟨0, false, 3⟩⟩ 100 "b"
        (.resp { status_code := 200, text := "",
                 jsonStatus := some "error" })).snd.throttle.callCount = 3 + 1 :=
  ⟨(terminal_state_idempotence _ 100 "a" (.exn "x") ⟨some "completed", 5, some "u", 5⟩).1
      (by simp [cachePut]) rfl,
   (terminal_state_idempotence _ 100 "b"
        (.resp { status_code := 200, text := "", jsonStatus := some "error" })
        ⟨some "error", 0, none, 0⟩).2
      (by simp [cachePut]) rfl (by simp) (by simp) rfl (by simp)⟩

/-- C2 counterexample: the claim as stated is false for Failed records. The
failure state the code stores is the provider-reported `"error"` (which the
spec's state abstraction maps to `Failed`); a cached `"error"` record whose
staleness windows have expired does trigger a provider call (the ghost call
counter increments from 0 to 1), so such a record is not terminal. -/
theorem terminal_failed_counterexample :
    specState (some "error") = .Failed
    ∧ (get_video_status
        ⟨cachePut (fun _ => none) (some "job") ⟨some "error", 0, none, 0⟩,
         none, ⟨0, false, 0⟩⟩ 100 "job"
        (.resp { status_code := 200, text := "",
                 jsonStatus := some "error" })).snd.throttle.callCount = 1 := by
  constructor
  · rfl
  · rfl

/-- C3 (amended): state mapping on a live check of `get_video_status`, for a
stale non-completed record and an open throttle. Provider state `done` yields
a completed cached record capturing the reported `result_url`; a non-error
non-done provider state (`created`/`started`) is stored verbatim and
abstracts (`specState`) to Processing; a provider error leaves the job cache
unchanged and surfaces an error (the original status and body wrapped in an
HTTP 500 by the blanket handler) — except that a provider error with status
429 is mistaken for the gateway's own throttle denial and swallowed into the
cached fallback, so no error is surfaced in that case. -/
theorem live_check_state_mapping (s : AppState) (now : Nat) (vid : String)
    (e : CacheEntry) (r : DIDResponse)
    (hlook : s.video_cache (some vid) = some e)
    (hst : e.status ≠ some "completed")
    (h2 : 30 ≤ now - e.last_checked) (h3 : 60 ≤ now - e.last_d_id_check)
    (hl : s.throttle.did_api_lock = false)
    (hi : 15 ≤ now - s.throttle.last_did_api_call) :
    (r.status_code = 200 → r.jsonStatus = some "done" →
      get_video_status s now vid (.resp r)
        = (.ok { status := some "completed", video_url := r.jsonResultUrl },
           { s with throttle := ⟨now, false, s.throttle.callCount + 1⟩,
                    video_cache := cachePut s.video_cache (some vid)
                      ⟨some "completed", now, r.jsonResultUrl, now⟩ }))
    ∧ (r.status_code = 200 →
        (r.jsonStatus = some "created" ∨ r.jsonStatus = some "started") →
        (get_video_status s now vid (.resp r)).snd.video_cache (some vid)
            = some ⟨r.jsonStatus, now, none, now⟩
          ∧ specState r.jsonStatus = .Processing
          ∧ (get_video_status s now vid (.resp r)).fst
              = .ok { status := r.jsonStatus, message := some processingMsg })
    ∧ (r.status_code ≠ 200 →
        (get_video_status s now vid (.resp r)).snd.video_cache = s.video_cache
          ∧ (r.status_code ≠ 429 →
              (get_video_status s now vid (.resp r)).fst
                = .error (.http 500 (excToString (.http r.status_code r.text))))
          ∧ (r.status_code = 429 →
              (get_video_status s now vid (.resp r)).fst
                = .ok { status := e.status, message := some throttledMsg })) := by
  have hlive := get_status_stale s now vid (.resp r) e hlook hst h2 h3
  have hresp := status_live_check_resp s now vid (some e) r hl hi
  refine ⟨?_, ?_, ?_⟩
  · intro hc hdone
    unfold get_video_status
    rw [hlive, hresp]
    simp [hc, hdone]
  · intro hc hps
    have hnd : r.jsonStatus ≠ some "done" := by
      rcases hps with h | h <;> rw [h] <;> simp
    constructor
    · rw [get_video_status_snd, hlive, hresp]
      simp [hc, hnd, cachePut]
    constructor
    · rcases hps with h | h <;> rw [h] <;> rfl
    · unfold get_video_status
      rw [hlive, hresp]
      simp [hc, hnd]
  · intro hc
    refine ⟨?_, ?_, ?_⟩
    · rw [get_video_status_snd, hlive, hresp]
      by_cases h429 : r.status_code = 429 <;> simp [hc, h429]
    · intro h429
      unfold get_video_status
      rw [hlive, hresp]
      simp [hc, h429]
    · intro h429
      unfold get_video_status
      rw [hlive, hresp]
      simp [hc, h429]

/-- Witness for C3 (amended) at concrete inputs: a stale `"started"` record at
time 100 with an open throttle, probed with a `done` response carrying a URL,
with a `started` response, and with a 503 provider error. -/
theorem live_check_state_mapping_witness :
    get_video_status
        ⟨cachePut (fun _ => none) (some "w") ⟨some "started", 0, none, 0⟩,
         none, ⟨0, false, 0⟩⟩ 100 "w"
        (.resp { status_code := 200, text := "", jsonStatus := some "done",
                 jsonResultUrl := some "https://x/v.mp4" })
      = (.ok { status := some "completed", video_url := some "https://x/v.mp4" },
         ⟨cachePut (cachePut (fun _ => none) (some "w") ⟨some "started", 0, none, 0⟩)
            (some "w") ⟨some "completed", 100, some "https://x/v.mp4", 100⟩,
          none, ⟨100, false, 1⟩⟩)
    ∧ ((get_video_status
          ⟨cachePut (fun _ => none) (some "w") ⟨some "started", 0, none, 0⟩,
           none, ⟨0, false, 0⟩⟩ 100 "w"
          (.resp { status_code := 200, text := "",
                   jsonStatus := some "started" })).snd.video_cache (some "w")
          = some ⟨some "started", 100, none, 100⟩
        ∧ specState (some "started") = .Processing)
    ∧ (get_video_status
          ⟨cachePut (fun _ => none) (some "w") ⟨some "started", 0, none, 0⟩,
           none, ⟨0, false, 0⟩⟩ 100 "w"
          (.resp { status_code := 503, text := "upstream down" })).fst
        = .error (.http 500 (excToString (.http 503 "upstream down"))) := by
  have h1 := live_check_state_mapping
    ⟨cachePut (fun _ => none) (some "w") ⟨some "started", 0, none, 0⟩,
     none, ⟨0, false, 0⟩⟩ 100 "w" ⟨some "started", 0, none, 0⟩
    { status_code := 200, text := "", jsonStatus := some "done",
      jsonResultUrl := some "https://x/v.mp4" }
    (by simp [cachePut]) (by simp) (by decide) (by decide) rfl (by decide)
  have h2 := live_check_state_mapping
    ⟨cachePut (fun _ => none) (some "w") ⟨some "started", 0, none, 0⟩,
     none, ⟨0, false, 0⟩⟩ 100 "w" ⟨some "started", 0, none, 0⟩
    { status_code := 200, text := "", jsonStatus := some "started" }
    (by simp [cachePut]) (by simp) (by decide) (by decide) rfl (by decide)
  have h3 := live_check_state_mapping
    ⟨cachePut (fun _ => none) (some "w") ⟨some "started", 0, none, 0⟩,
     none, ⟨0, false, 0⟩⟩ 100 "w" ⟨some "started", 0, none, 0⟩
    { status_code := 503, text := "upstream down" }
    (by simp [cachePut]) (by simp) (by decide) (by decide) rfl (by decide)
  refine ⟨h1.1 rfl rfl, ⟨(h2.2.1 rfl (Or.inr rfl)).1, (h2.2.1 rfl (Or.inr rfl)).2.1⟩,
    (h3.2.2 (by decide)).2.1 (by decide)⟩

/-- C3 counterexample: a provider error with an existing cache entry where no
error is surfaced, contradicting "on a provider error … an error is
surfaced". The provider itself answers HTTP 429; the handler's rate-limit
fallback (lines 271-278) mistakes it for the gateway throttle and returns the
cached state as a success. -/
theorem live_check_error_counterexample :
    (get_video_status
        ⟨cachePut (fun _ => none) (some "v2") ⟨some "started", 0, none, 0⟩,
         none, ⟨0, false, 0⟩⟩ 100 "v2"
        (.resp { status_code := 429, text := "Too Many Requests" })).fst
      = .ok { status := some "started", message := some throttledMsg } := by
  rfl

/-- C6 (amended): a throttle denial during a status query. With a cache entry
(stale enough that a live check is attempted) the cached state is returned and
the caller sees no error and no state change; with no cache entry the denial
escapes the inner handler and the blanket `except Exception` surfaces it as an
HTTP 500 wrapping the 429 rate-limit message — not as status 429. -/
theorem throttle_denial_status (s : AppState) (now : Nat) (vid : String)
    (call : ProviderOutcome) (e : CacheEntry)
    (hden : s.throttle.did_api_lock = true ∨ now - s.throttle.last_did_api_call < 15) :
    (s.video_cache (some vid) = some e → e.status ≠ some "completed" →
      30 ≤ now - e.last_checked → 60 ≤ now - e.last_d_id_check →
      get_video_status s now vid call
        = (.ok { status := e.status, message := some throttledMsg }, s))
    ∧ (s.video_cache (some vid) = none →
        get_video_status s now vid call
          = (.error (.http 500 (excToString (.http 429 rateLimitDetail))), s)) := by
  constructor
  · intro hlook hst h2 h3
    unfold get_video_status
    rw [get_status_stale s now vid call e hlook hst h2 h3,
      status_live_check_denied _ _ _ _ _ hden]
  · intro hlook
    unfold get_video_status
    rw [get_status_nocache s now vid call hlook,
      status_live_check_denied _ _ _ _ _ hden]

/-- Witness for C6 (amended) at concrete inputs: a locked throttle, once with
a stale `"started"` record (cached fallback, no error) and once with an empty
cache (HTTP 500 wrapping the 429). -/
theorem throttle_denial_status_witness :
    get_video_status
        ⟨cachePut (fun _ => none) (some "p") ⟨some "started", 0, none, 0⟩,
         none, ⟨50, true, 7⟩⟩ 100 "p" (.exn "x")
      = (.ok { status := some "started", message := some throttledMsg },
         ⟨cachePut (fun _ => none) (some "p") ⟨some "started", 0, none, 0⟩,
          none, ⟨50, true, 7⟩⟩)
    ∧ get_video_status ⟨fun _ => none, none, ⟨50, true, 7⟩⟩ 100 "q" (.exn "x")
      = (.error (.http 500 (excToString (.http 429 rateLimitDetail))),
         ⟨fun _ => none, none, ⟨50, true, 7⟩⟩) :=
  ⟨(throttle_denial_status
      ⟨cachePut (fun _ => none) (some "p") ⟨some "started", 0, none, 0⟩,
       none, ⟨50, true, 7⟩⟩ 100 "p" (.exn "x") ⟨some "started", 0, none, 0⟩
      (Or.inl rfl)).1 (by simp [cachePut]) (by simp) (by decide) (by decide),
   (throttle_denial_status ⟨fun _ => none, none, ⟨50, true, 7⟩⟩ 100 "q" (.exn "x")
      ⟨some "started", 0, none, 0⟩ (Or.inl rfl)).2 rfl⟩

/-- C6 counterexample: with no cache entry, a throttle denial is NOT surfaced
as RateLimited (429) — the blanket handler replaces it with an HTTP 500 error
whose detail merely embeds the 429 message. -/
theorem throttle_denial_counterexample :
    (get_video_status ⟨fun _ => none, none, ⟨0, true, 0⟩⟩ 100 "unknown"
        (.resp { status_code := 200, text := "" })).fst
      = .error (.http 500 (excToString (.http 429 rateLimitDetail)))
    ∧ excToString (.http 429 rateLimitDetail)
      = "429: Too many requests to D-ID API. Please wait before trying again." := by
  constructor
  · rfl
  · decide

/-- C7 (amended): submission error propagation. When the provider answers a
submission with a non-201 status, the inner `HTTPException(status, body)` is
re-caught by the blanket `except Exception` and surfaced as an HTTP 500 whose
detail embeds the provider's status and body (as `str(e)`); the caller-visible
status code is 500, not the provider's. The failure is never swallowed into a
cached result: the job cache is unchanged. -/
theorem submission_error_propagation (s : AppState) (now : Nat)
    (text language avatar : String) (img : Option UploadFileM) (r : DIDResponse)
    (hl : s.throttle.did_api_lock = false)
    (hi : 15 ≤ now - s.throttle.last_did_api_call)
    (hcode : r.status_code ≠ 201) :
    (generate_video s now text language avatar img (.resp r)).fst
        = .error (.http 500 (excToString (.http r.status_code r.text)))
    ∧ (generate_video s now text language avatar img (.resp r)).snd.video_cache
        = s.video_cache := by
  unfold generate_video
  rw [make_did_allowed_resp _ _ _ hl hi]
  simp [hcode]

/-- Witness for C7 (amended) at concrete inputs: a 503 submission failure on
an empty cache. -/
theorem submission_error_propagation_witness :
    (generate_video ⟨fun _ => none, none, ⟨0, false, 0⟩⟩ 100 "hello" "en" "default"
        none (.resp { status_code := 503, text := "service unavailable" })).fst
      = .error (.http 500 (excToString (.http 503 "service unavailable")))
    ∧ (generate_video ⟨fun _ => none, none, ⟨0, false, 0⟩⟩ 100 "hello" "en" "default"
        none (.resp { status_code := 503, text := "service unavailable" })).snd.video_cache
      = (⟨fun _ => none, none, ⟨0, false, 0⟩⟩ : AppState).video_cache :=
  submission_error_propagation ⟨fun _ => none, none, ⟨0, false, 0⟩⟩ 100
    "hello" "en" "default" none { status_code := 503, text := "service unavailable" }
    rfl (by decide) (by decide)

/-- C7 counterexample: the claim as stated is false — the surfaced error does
not carry the provider's status and body unchanged. For a 402 provider
response with body "insufficient credits", the caller sees status 500 with
detail "402: insufficient credits" (the `str()` of the inner exception), not
status 402 with the body verbatim. -/
theorem submission_error_counterexample :
    (generate_video ⟨fun _ => none, none, ⟨0, false, 0⟩⟩ 100 "hello" "en" "default"
        none (.resp { status_code := 402, text := "insufficient credits" })).fst
      = .error (.http 500 (excToString (.http 402 "insufficient credits")))
    ∧ excToString (.http 402 "insufficient credits") = "402: insufficient credits" := by
  constructor
  · rfl
  · decide

/-- C8 (amended): presenter-list caching. A presenters entry under 3600
seconds old is served from cache with no state change and no provider call;
an expired entry with an open throttle is refreshed by a live call; but a
throttle denial on an expired entry does NOT fall back to the stale entry —
the 429 escapes into the blanket `except Exception` and the caller receives
an HTTP 500 wrapping the rate-limit message. -/
theorem presenters_caching (s : AppState) (now : Nat) (call : ProviderOutcome)
    (ce : AvatarsCacheEntry) (r : DIDResponse) :
    (s.avatars_cache = some ce → now - ce.last_checked < 3600 →
      get_available_avatars s now call = (.ok ce.avatars, s))
    ∧ (s.avatars_cache = some ce → 3600 ≤ now - ce.last_checked →
        s.throttle.did_api_lock = false → 15 ≤ now - s.throttle.last_did_api_call →
        r.status_code = 200 →
        get_available_avatars s now (.resp r)
          = (.ok (r.presenters.map formatPresenter),
             { s with throttle := ⟨now, false, s.throttle.callCount + 1⟩,
                      avatars_cache := some ⟨r.presenters.map formatPresenter, now⟩ }))
    ∧ (s.avatars_cache = some ce → 3600 ≤ now - ce.last_checked →
        (s.throttle.did_api_lock = true ∨ now - s.throttle.last_did_api_call < 15) →
        get_available_avatars s now call
          = (.error (.http 500 (excToString (.http 429 rateLimitDetail))), s)) := by
  refine ⟨?_, ?_, ?_⟩
  · intro hc hfresh
    unfold get_available_avatars
    rw [hc]
    simp [hfresh]
  · intro hc hstale hl hi hcode
    unfold get_available_avatars
    rw [hc, make_did_allowed_resp _ _ _ hl hi]
    simp [Nat.not_lt.mpr hstale, hcode]
  · intro hc hstale hden
    unfold get_available_avatars
    rw [hc, make_did_denied _ _ _ hden]
    simp only [Nat.not_lt.mpr hstale, if_false, ite_false]
    rw [← hc]

/-- Witness for C8 (amended) at concrete inputs: a fresh entry served from
cache, an expired entry refreshed by a live call, and a denial on an expired
entry surfacing the wrapped error. -/
theorem presenters_caching_witness :
    get_available_avatars
        ⟨fun _ => none, some ⟨[⟨some "p1", some "Alice", some "t1"⟩], 3000⟩,
         ⟨0, false, 0⟩⟩ 3600 (.exn "x")
      = (.ok [⟨some "p1", some "Alice", some "t1"⟩],
         ⟨fun _ => none, some ⟨[⟨some "p1", some "Alice", some "t1"⟩], 3000⟩,
          ⟨0, false, 0⟩⟩)
    ∧ get_available_avatars
        ⟨fun _ => none, some ⟨[⟨some "p1", some "Alice", some "t1"⟩], 0⟩,
         ⟨0, false, 0⟩⟩ 4000
        (.resp { status_code := 200, text := "",
                 presenters := [⟨some "p2", none, some "t2"⟩] })
      = (.ok [⟨some "p2", some "p2", some "t2"⟩],
         ⟨fun _ => none, some ⟨[⟨some "p2", some "p2", some "t2"⟩], 4000⟩,
          ⟨4000, false, 1⟩⟩)
    ∧ get_available_avatars
        ⟨fun _ => none, some ⟨[⟨some "p1", some "Alice", some "t1"⟩], 0⟩,
         ⟨3990, false, 5⟩⟩ 4000 (.exn "x")
      = (.error (.http 500 (excToString (.http 429 rateLimitDetail))),
         ⟨fun _ => none, some ⟨[⟨some "p1", some "Alice", some "t1"⟩], 0⟩,
          ⟨3990, false, 5⟩⟩) := by
  have h1 := presenters_caching
    ⟨fun _ => none, some ⟨[⟨some "p1", some "Alice", some "t1"⟩], 3000⟩, ⟨0, false, 0⟩⟩
    3600 (.exn "x") ⟨[⟨some "p1", some "Alice", some "t1"⟩], 3000⟩
    { status_code := 200, text := "" }
  have h2 := presenters_caching
    ⟨fun _ => none, some ⟨[⟨some "p1", some "Alice", some "t1"⟩], 0⟩, ⟨0, false, 0⟩⟩
    4000
    (.resp { status_code := 200, text := "", presenters := [⟨some "p2", none, some "t2"⟩] })
    ⟨[⟨some "p1", some "Alice", some "t1"⟩], 0⟩
    { status_code := 200, text := "", presenters := [⟨some "p2", none, some "t2"⟩] }
  have h3 := presenters_caching
    ⟨fun _ => none, some ⟨[⟨some "p1", some "Alice", some "t1"⟩], 0⟩, ⟨3990, false, 5⟩⟩
    4000 (.exn "x") ⟨[⟨some "p1", some "Alice", some "t1"⟩], 0⟩
    { status_code := 200, text := "" }
  exact ⟨h1.1 rfl (by decide), h2.2.1 rfl (by decide) rfl (by decide) rfl,
    h3.2.2 rfl (by decide) (Or.inr (by decide))⟩

/-- C8 counterexample: the claim as stated is false — a throttle denial while
an older (expired) cached entry exists yields an error, not the cached entry:
the caller receives HTTP 500 wrapping the 429 message instead of the stale
presenter list. -/
theorem presenters_cache_counterexample :
    (get_available_avatars
        ⟨fun _ => none, some ⟨[⟨some "p1", some "Alice", some "t1"⟩], 0⟩,
         ⟨0, true, 0⟩⟩ 4000 (.resp { status_code := 200, text := "" }))
      = (.error (.http 500 (excToString (.http 429 rateLimitDetail))),
         ⟨fun _ => none, some ⟨[⟨some "p1", some "Alice", some "t1"⟩], 0⟩,
          ⟨0, true, 0⟩⟩) := by
  rfl

/-- Updating one key with a record satisfying the result-URL invariant
preserves the invariant of the whole map. -/
theorem cachePut_inv {c : Option String → Option CacheEntry}
    (hc : ∀ k e, c k = some e → entryInv e) {k0 : Option String} {e0 : CacheEntry}
    (he : entryInv e0) : ∀ k e, cachePut c k0 e0 k = some e → entryInv e := by
  intro k e h
  unfold cachePut at h
  split at h
  · obtain rfl : e0 = e := Option.some.inj h
    exact he
  · exact hc _ _ h

/-- The live check of a status query preserves the result-URL invariant,
given a well-formed provider outcome. -/
theorem status_live_check_inv (s : AppState) (now : Nat) (vid : String)
    (ce : Option CacheEntry) (call : ProviderOutcome)
    (hinv : cacheInv s) (hwf : wfOutcome call) :
    cacheInv (status_live_check s now vid ce call).snd := by
  by_cases hl : s.throttle.did_api_lock = true
  · rw [status_live_check_denied _ _ _ _ _ (Or.inl hl)]
    rcases ce with _ | e <;> exact hinv
  replace hl : s.throttle.did_api_lock = false := by simpa using hl
  by_cases hi : now - s.throttle.last_did_api_call < 15
  · rw [status_live_check_denied _ _ _ _ _ (Or.inr hi)]
    rcases ce with _ | e <;> exact hinv
  replace hi : 15 ≤ now - s.throttle.last_did_api_call := Nat.not_lt.mp hi
  rcases call with r | m
  · rw [status_live_check_resp _ _ _ _ _ hl hi]
    obtain ⟨hwf1, hwf2⟩ := hwf
    by_cases hc : r.status_code = 200
    · by_cases hd : r.jsonStatus = some "done"
      · simp only [hc, hd]
        simp only [ne_eq, not_true_eq_false, if_false, ite_false, if_pos rfl]
        refine cachePut_inv hinv ?_
        unfold entryInv
        simp [hwf1 hd]
      · simp only [hc, ne_eq, not_true_eq_false, if_false, ite_false, if_neg hd]
        refine cachePut_inv hinv ?_
        unfold entryInv
        simp [hwf2]
    · simp only [ne_eq, hc, not_false_eq_true, if_true, ite_true]
      by_cases h429 : r.status_code = 429
      · simp only [h429, if_pos rfl]
        rcases ce with _ | e <;> exact hinv
      · simp only [if_neg h429]
        exact hinv
  · rw [status_live_check_exn _ _ _ _ _ hl hi]
    exact hinv

/-- The live branch of `stream_video` preserves the result-URL invariant,
given a well-formed provider outcome. -/
theorem stream_video_live_inv (s : AppState) (now : Nat) (vid : String)
    (call : ProviderOutcome) (hinv : cacheInv s) (hwf : wfOutcome call) :
    cacheInv (stream_video_live s now vid call).snd := by
  unfold stream_video_live
  by_cases hl : s.throttle.did_api_lock = true
  · rw [make_did_denied _ _ _ (Or.inl hl)]
    exact hinv
  replace hl : s.throttle.did_api_lock = false := by simpa using hl
  by_cases hi : now - s.throttle.last_did_api_call < 15
  · rw [make_did_denied _ _ _ (Or.inr hi)]
    exact hinv
  replace hi : 15 ≤ now - s.throttle.last_did_api_call := Nat.not_lt.mp hi
  rcases call with r | m
  · rw [make_did_allowed_resp _ _ _ hl hi]
    obtain ⟨hwf1, hwf2⟩ := hwf
    by_cases hc : r.status_code = 200
    · by_cases hd : r.jsonStatus = some "done"
      · simp only [hc, hd, ne_eq, not_true_eq_false, if_false, ite_false]
        refine cachePut_inv hinv ?_
        unfold entryInv
        simp [hwf1 hd]
      · simp only [hc, ne_eq, not_true_eq_false, if_false, ite_false, if_pos hd]
        exact hinv
    · simp only [ne_eq, hc, not_false_eq_true, if_true, ite_true]
      exact hinv
  · rw [make_did_allowed_exn _ _ _ hl hi]
    exact hinv

/-- C4: the result-URL invariant. For every job record in the cache,
`result_url` is present exactly when the record's status is `"completed"`,
and the invariant is preserved by each of the three record-writing operations
— submission (`generate_video`), status update (`get_video_status`) and the
stream-triggered update (`stream_video`) — given provider responses honouring
the provider contract (`done` responses carry a URL; provider-native states
never spell `"completed"`). -/
theorem result_url_invariant (s : AppState) (now : Nat)
    (text language avatar : String) (img : Option UploadFileM)
    (vid : String) (call : ProviderOutcome)
    (hinv : cacheInv s) (hwf : wfOutcome call) :
    cacheInv (generate_video s now text language avatar img call).snd
    ∧ cacheInv (get_video_status s now vid call).snd
    ∧ cacheInv (stream_video s now vid call).snd := by
  refine ⟨?_, ?_, ?_⟩
  · unfold generate_video
    rcases hmd : make_did_api_call s.throttle now call with ⟨res, th⟩
    rcases res with e | r
    · exact hinv
    · by_cases hcode : r.status_code = 201
      · simp only [hcode, ne_eq, not_true_eq_false, if_false, ite_false]
        exact cachePut_inv hinv (by simp [entryInv])
      · simp only [ne_eq, hcode, not_false_eq_true, if_true, ite_true]
        exact hinv
  · rw [get_video_status_snd]
    unfold get_video_status_inner
    rcases hlook : s.video_cache (some vid) with _ | e
    · exact status_live_check_inv s now vid none call hinv hwf
    · by_cases hst : e.status = some "completed"
      · simp only [hst, if_pos rfl]
        exact hinv
      · by_cases hf : now - e.last_checked < 30
        · simp only [if_neg hst, if_pos hf]
          exact hinv
        · by_cases ht3 : now - e.last_d_id_check < 60
          · simp only [if_neg hst, if_neg hf, if_pos ht3]
            refine cachePut_inv hinv ?_
            have := hinv _ _ hlook
            unfold entryInv at this ⊢
            simpa using this
          · simp only [if_neg hst, if_neg hf, if_neg ht3]
            exact status_live_check_inv s now vid (some e) call hinv hwf
  · unfold stream_video
    rcases hlook : s.video_cache (some vid) with _ | e
    · exact stream_video_live_inv s now vid call hinv hwf
    · by_cases hu : e.status = some "completed" ∧ truthyUrl e.result_url = true
      · simp only [if_pos hu]
        exact hinv
      · simp only [if_neg hu]
        exact stream_video_live_inv s now vid call hinv hwf

/-- Witness for C4 at concrete inputs: the empty cache satisfies the
invariant, and a well-formed `done` response with a URL preserves it through
all three operations. -/
theorem result_url_invariant_witness :
    cacheInv (generate_video ⟨fun _ => none, none, ⟨0, false, 0⟩⟩ 100 "hi" "en"
        "default" none
        (.resp { status_code := 201, text := "", jsonId := some "j",
                 jsonStatus := some "done", jsonResultUrl := some "u" })).snd
    ∧ cacheInv (get_video_status ⟨fun _ => none, none, ⟨0, false, 0⟩⟩ 100 "j"
        (.resp { status_code := 201, text := "", jsonId := some "j",
                 jsonStatus := some "done", jsonResultUrl := some "u" })).snd
    ∧ cacheInv (stream_video ⟨fun _ => none, none, ⟨0, false, 0⟩⟩ 100 "j"
        (.resp { status_code := 201, text := "", jsonId := some "j",
                 jsonStatus := some "done", jsonResultUrl := some "u" })).snd :=
  result_url_invariant ⟨fun _ => none, none, ⟨0, false, 0⟩⟩ 100 "hi" "en" "default"
    none "j"
    (.resp { status_code := 201, text := "", jsonId := some "j",
             jsonStatus := some "done", jsonResultUrl := some "u" })
    (fun _ _ h => Option.noConfusion h) ⟨fun _ => by simp, by simp⟩

/-- With no usable completed-with-URL cache entry, `stream_video` takes the
live branch. -/
theorem stream_video_no_usable_cache (s : AppState) (now : Nat) (vid : String)
    (call : ProviderOutcome)
    (hnc : ∀ e, s.video_cache (some vid) = some e →
      ¬(e.status = some "completed" ∧ truthyUrl e.result_url = true)) :
    stream_video s now vid call = stream_video_live s now vid call := by
  unfold stream_video
  rcases hlook : s.video_cache (some vid) with _ | e
  · rfl
  · simp [hnc e hlook]

/-- C10: the streaming endpoint mutates the core job cache. For an id with no
completed-with-URL cache entry, an open throttle, and a provider answering
HTTP 200 with status `done`, `stream_video` writes a completed record
carrying the reported result URL and returns that URL; every subsequent
`get_video_status` for that id is then served from the cache with no state
change and no further provider call. -/
theorem stream_triggers_cache_update (s : AppState) (now : Nat) (vid : String)
    (r : DIDResponse)
    (hnc : ∀ e, s.video_cache (some vid) = some e →
      ¬(e.status = some "completed" ∧ truthyUrl e.result_url = true))
    (hl : s.throttle.did_api_lock = false)
    (hi : 15 ≤ now - s.throttle.last_did_api_call)
    (hcode : r.status_code = 200) (hdone : r.jsonStatus = some "done") :
    (stream_video s now vid (.resp r)).fst = .ok r.jsonResultUrl
    ∧ (stream_video s now vid (.resp r)).snd.video_cache (some vid)
        = some ⟨some "completed", now, r.jsonResultUrl, now⟩
    ∧ ∀ now' call',
        get_video_status (stream_video s now vid (.resp r)).snd now' vid call'
          = (.ok { status := some "completed", video_url := r.jsonResultUrl },
             (stream_video s now vid (.resp r)).snd) := by
  have hev : stream_video s now vid (.resp r)
      = (.ok r.jsonResultUrl,
         { s with throttle := ⟨now, false, s.throttle.callCount + 1⟩,
                  video_cache := cachePut s.video_cache (some vid)
                    ⟨some "completed", now, r.jsonResultUrl, now⟩ }) := by
    rw [stream_video_no_usable_cache s now vid (.resp r) hnc]
    unfold stream_video_live
    rw [make_did_allowed_resp _ _ _ hl hi]
    simp [hcode, hdone]
  have hlook2 : (stream_video s now vid (.resp r)).snd.video_cache (some vid)
      = some ⟨some "completed", now, r.jsonResultUrl, now⟩ := by
    rw [hev]
    simp [cachePut]
  refine ⟨by rw [hev], hlook2, ?_⟩
  intro now' call'
  exact completed_cache_hit _ now' vid call' _ hlook2 rfl

/-- Witness for C10 at concrete inputs: empty cache, open throttle, a `done`
response with a URL; the follow-up status query at a later time is served from
cache. -/
theorem stream_triggers_cache_update_witness :
    (stream_video ⟨fun _ => none, none, ⟨0, false, 0⟩⟩ 100 "v"
        (.resp { status_code := 200, text := "", jsonStatus := some "done",
                 jsonResultUrl := some "https://x/v.mp4" })).fst
      = .ok (some "https://x/v.mp4")
    ∧ (stream_video ⟨fun _ => none, none, ⟨0, false, 0⟩⟩ 100 "v"
        (.resp { status_code := 200, text := "", jsonStatus := some "done",
                 jsonResultUrl := some "https://x/v.mp4" })).snd.video_cache (some "v")
      = some ⟨some "completed", 100, some "https://x/v.mp4", 100⟩
    ∧ get_video_status
        (stream_video ⟨fun _ => none, none, ⟨0, false, 0⟩⟩ 100 "v"
          (.resp { status_code := 200, text := "", jsonStatus := some "done",
                   jsonResultUrl := some "https://x/v.mp4" })).snd 500 "v" (.exn "y")
      = (.ok { status := some "completed", video_url := some "https://x/v.mp4" },
         (stream_video ⟨fun _ => none, none, ⟨0, false, 0⟩⟩ 100 "v"
          (.resp { status_code := 200, text := "", jsonStatus := some "done",
                   jsonResultUrl := some "https://x/v.mp4" })).snd) := by
  have h := stream_triggers_cache_update ⟨fun _ => none, none, ⟨0, false, 0⟩⟩ 100 "v"
    { status_code := 200, text := "", jsonStatus := some "done",
      jsonResultUrl := some "https://x/v.mp4" }
    (fun _ he => Option.noConfusion he) rfl (by decide) rfl rfl
  exact ⟨h.1, h.2.1, h.2.2 500 (.exn "y")⟩
